import Mathlib

/-!
# LogicLock — verification of the core game logic

Shallow embedding of the LogicLock repository's game core:

* `src/services/logicService.ts` — `evaluateGate`, `evaluateBoard`,
  `checkWinCondition`, board constants;
* `src/App.tsx` — `executeMove`, `handleSlotClick`, `handleDiscardHand`,
  and the AI-turn effect (`performAIMove`);
* `src/types.ts` — `GateType`, `BoardNode`, player/game state shapes.

Conventions of the embedding:

* The TypeScript bit type `0 | 1` is embedded as `Bool` (`1 ↦ true`,
  `0 ↦ false`); the tri-state `0 | 1 | null` becomes `Option Bool`.
* `getRandomGate()` draws are made explicit by threading a stream
  `rng : Nat → GateType`; the k-th draw of an operation is `rng k`.
* React `useState` setters are modelled by returning an updated
  `GameState` value.
* JavaScript's dynamic indexing is modelled with `Option`-returning
  lookups; comments note the places where the source could only reach an
  index out of range by throwing (those paths are unreachable from the
  app's call sites, which is noted where it matters).
-/

/-- `GateType` from `src/types.ts`: the closed enumeration of gate kinds. -/
inductive GateType where
  | AND
  | OR
  | XOR
  | NAND
  | NOR
deriving DecidableEq, Repr

/-- `PlayerId` from `src/types.ts`. -/
inductive PlayerId where
  | P1
  | P2
deriving DecidableEq, Repr

/-- The codomain of `checkWinCondition` (minus `null`): `PlayerId | 'DRAW'`. -/
inductive WinResult where
  | P1
  | P2
  | DRAW
deriving DecidableEq, Repr

/-- `BoardNode` from `src/types.ts`.  `value` is the tri-state output of the
node: `none` = disconnected, `some true` = 1, `some false` = 0. -/
structure BoardNode where
  id : Nat
  gate : Option GateType
  value : Option Bool
deriving DecidableEq, Repr

/-- `BOARD_SIZE` from `src/services/logicService.ts`. -/
def BOARD_SIZE : Nat := 7

/-- `INITIAL_INPUTS_COUNT` from `src/services/logicService.ts`. -/
def INITIAL_INPUTS_COUNT : Nat := 8

/-- `evaluateGate` from `src/services/logicService.ts`: the boolean table of
a single gate (AND = A∧B, OR = A∨B, XOR = A≠B, NAND = ¬(A∧B), NOR = ¬(A∨B)). -/
def evaluateGate : GateType → Bool → Bool → Bool
  | GateType.AND, a, b => a && b
  | GateType.OR, a, b => a || b
  | GateType.XOR, a, b => a != b
  | GateType.NAND, a, b => !(a && b)
  | GateType.NOR, a, b => !(a || b)

/-- One iteration of the `for (let i = BOARD_SIZE - 1; i >= 0; i--)` loop in
`evaluateBoard` (`src/services/logicService.ts`): recompute the `value` of
slot `i` reading the (already updated) children values for `i < 3` and the
raw inputs for `i ≥ 3`.  The `nodes[i]? = none` case is unreachable for the
length-7 boards the app builds (the source would throw there). -/
def evalNodeStep (inputs : List Bool) (nodes : List BoardNode) (i : Nat) :
    List BoardNode :=
  match nodes[i]? with
  | none => nodes
  | some node =>
    match node.gate with
    | none => nodes.set i { node with value := none }
    | some g =>
      let valA : Option Bool :=
        if 3 ≤ i then inputs[(i - 3) * 2]? else (nodes[i * 2 + 1]?).bind BoardNode.value
      let valB : Option Bool :=
        if 3 ≤ i then inputs[(i - 3) * 2 + 1]? else (nodes[i * 2 + 2]?).bind BoardNode.value
      match valA, valB with
      | some a, some b => nodes.set i { node with value := some (evaluateGate g a b) }
      | _, _ => nodes.set i { node with value := none }

/-- `evaluateBoard` from `src/services/logicService.ts`: recompute every
`value` field bottom-up, iterating slot ids from 6 down to 0. -/
def evaluateBoard (nodes : List BoardNode) (inputs : List Bool) : List BoardNode :=
  (List.range BOARD_SIZE).reverse.foldl (evalNodeStep inputs) nodes

/-- `checkWinCondition` from `src/services/logicService.ts`: `none` while the
board is not full; on a full board map root value 1 ↦ P1, 0 ↦ P2, and the
defensive `null`-root fallback ↦ DRAW. -/
def checkWinCondition (nodes : List BoardNode) : Option WinResult :=
  if nodes.all fun n => n.gate.isSome then
    match (nodes[0]?).bind BoardNode.value with
    | some true => some WinResult.P1
    | some false => some WinResult.P2
    | none => some WinResult.DRAW
  else none

/-- The gate of slot `i` on a board. -/
def gateAt (nodes : List BoardNode) (i : Nat) : Option GateType :=
  (nodes[i]?).bind BoardNode.gate

/-- The tri-state value of slot `i` on a board. -/
def valueAt (nodes : List BoardNode) (i : Nat) : Option Bool :=
  (nodes[i]?).bind BoardNode.value

/-- The id stored at position `i` on a board. -/
def idAt (nodes : List BoardNode) (i : Nat) : Option Nat :=
  (nodes[i]?).map BoardNode.id

/-- The `k`-th operand (`k ∈ {0, 1}`) that `evaluateBoard` feeds to slot `i`:
input bits `(i-3)*2` and `(i-3)*2+1` for leaves, children's values for inner
slots. -/
def operand (nodes : List BoardNode) (inputs : List Bool) (i k : Nat) : Option Bool :=
  if 3 ≤ i then inputs[(i - 3) * 2 + k]? else valueAt nodes (2 * i + 1 + k)

/-- The value the loop body of `evaluateBoard` stores: `none` if the gate is
missing or an operand is missing, otherwise the gate table applied to the two
operands. -/
def liftGate (g : Option GateType) (a b : Option Bool) : Option Bool :=
  match g, a, b with
  | some t, some x, some y => some (evaluateGate t x y)
  | _, _, _ => none

/-! ## Game state and moves (`src/App.tsx`) -/

/-- The in-memory match state of `App` that the game logic touches: the
`useState` cells `board`, `inputs`, `players[...].hand`, `turn`, `winner`.
(Presentation-only cells — `commentary`, `gateImages`, `selectedCardIndex`,
`isThinking` — are either omitted or passed as explicit arguments.) -/
structure GameState where
  board : List BoardNode
  inputs : List Bool
  handP1 : List GateType
  handP2 : List GateType
  turn : PlayerId
  winner : Option WinResult
deriving DecidableEq, Repr

/-- The hand of a player, `players[playerId].hand`. -/
def GameState.hand (st : GameState) : PlayerId → List GateType
  | PlayerId.P1 => st.handP1
  | PlayerId.P2 => st.handP2

/-- Replace a player's hand, `setPlayers(prev => ({...prev, [playerId]: ...}))`. -/
def setHand (st : GameState) : PlayerId → List GateType → GameState
  | PlayerId.P1, h => { st with handP1 := h }
  | PlayerId.P2, h => { st with handP2 := h }

/-- `const nextPlayer = playerId === 'P1' ? 'P2' : 'P1'` in `executeMove`. -/
def otherPlayer : PlayerId → PlayerId
  | PlayerId.P1 => PlayerId.P2
  | PlayerId.P2 => PlayerId.P1

/-- The two `actionType` values `executeMove` is called with. -/
inductive ActionType where
  | PLACE
  | DISCARD
deriving DecidableEq, Repr

/-- The key used for `newBoard[slotId] = …` in `executeMove`.  All call sites
pass either a slot id in `[0,6]` (`Sum.inl`) or — in the AI occupied-slot
fallback, which passes `players['P2'].hand[0]` where the slot id belongs — a
gate (`Sum.inr`).  In JavaScript the latter assigns a non-numeric string
property on the board array, which the `[...board]` copy taken immediately
afterwards drops, so it leaves the 7 indexed elements untouched. -/
def setSlot (nodes : List BoardNode) (key : Nat ⊕ GateType) (g : GateType) :
    List BoardNode :=
  match key with
  | Sum.inl i =>
    match nodes[i]? with
    | some node => nodes.set i { node with gate := some g }
    | none => nodes
  | Sum.inr _ => nodes

/-- The `while (newHand.length < 3) newHand.push(getRandomGate())` loop of
`executeMove`.  The loop pushes `3 - hand.length` cards, so running it with
fuel 3 is exact for every starting hand; the `k`-th draw is `rng k`. -/
def refill (rng : Nat → GateType) (k fuel : Nat) (hand : List GateType) :
    List GateType :=
  match fuel with
  | 0 => hand
  | fuel + 1 =>
    if hand.length < 3 then refill rng (k + 1) fuel (hand ++ [rng k]) else hand

/-- The `PLACE` branch of `executeMove` (`src/App.tsx`), together with the
common end-of-turn logic: update the board, re-evaluate the circuit, check
the win condition — a winning placement returns at once, before the hand
update and before the turn advances — otherwise remove the used card, draw
back to 3, and pass the turn to the other player. -/
def executeMovePlace (st : GameState) (rng : Nat → GateType) (playerId : PlayerId)
    (sk : Nat ⊕ GateType) (g : GateType) (idx : Nat) : GameState :=
  match checkWinCondition (evaluateBoard (setSlot st.board sk g) st.inputs) with
  | some w =>
    { st with board := evaluateBoard (setSlot st.board sk g) st.inputs, winner := some w }
  | none =>
    { setHand { st with board := evaluateBoard (setSlot st.board sk g) st.inputs } playerId
        (refill rng 0 3 ((st.hand playerId).eraseIdx idx)) with
      turn := otherPlayer playerId }

/-- The `DISCARD` branch of `executeMove` (`src/App.tsx`) together with the
common end-of-turn logic: deal a fresh 3-card hand and pass the turn. -/
def executeMoveDiscard (st : GameState) (rng : Nat → GateType)
    (playerId : PlayerId) : GameState :=
  { setHand st playerId [rng 0, rng 1, rng 2] with turn := otherPlayer playerId }

/-- `executeMove` from `src/App.tsx`.  The `PLACE` branch runs only when
`slotId`, `gate` and `handIndexToRemove` are all present (the source's
guard); a `PLACE` with a missing field skips both branches in the source but
still runs the common end-of-turn logic (never reached from the app's call
sites, which always pass all three fields for `PLACE`). -/
def executeMove (st : GameState) (rng : Nat → GateType) (actionType : ActionType)
    (playerId : PlayerId) (slotId : Option (Nat ⊕ GateType)) (gate : Option GateType)
    (handIndexToRemove : Option Nat) : GameState :=
  match actionType, slotId, gate, handIndexToRemove with
  | ActionType.PLACE, some sk, some g, some idx => executeMovePlace st rng playerId sk g idx
  | ActionType.DISCARD, _, _, _ => executeMoveDiscard st rng playerId
  | ActionType.PLACE, _, _, _ => { st with turn := otherPlayer playerId }

/-- `handleSlotClick` from `src/App.tsx`: ignore the click if the game is
over, no card is selected, or the slot already holds a gate; otherwise place
the selected card of the current player there. -/
def handleSlotClick (st : GameState) (rng : Nat → GateType)
    (selectedCardIndex : Option Nat) (slotId : Nat) : GameState :=
  if st.winner.isSome then st
  else
    match selectedCardIndex with
    | none => st
    | some idx =>
      match st.board[slotId]? with
      | none => st
      | some node =>
        if node.gate.isSome then st
        else
          executeMove st rng ActionType.PLACE st.turn (some (Sum.inl slotId))
            ((st.hand st.turn)[idx]?) (some idx)

/-- `handleDiscardHand` from `src/App.tsx`. -/
def handleDiscardHand (st : GameState) (rng : Nat → GateType) : GameState :=
  if st.winner.isSome then st
  else executeMove st rng ActionType.DISCARD st.turn none none none

/-! ## The AI proposal boundary (`src/App.tsx` effect + `src/types.ts`) -/

/-- The string tag an `AIMove` proposal carries for a discard. -/
def tagDiscard : String := "DISCARD"

/-- The string tag an `AIMove` proposal carries for a placement. -/
def tagPlace : String := "PLACE"

/-- The empty string (falsy in JavaScript, so `!aiMove.gateType` treats it
like a missing gate). -/
def emptyTag : String := ""

/-- The string the source compares hand gates against (`GateType` values are
their own names). -/
def gateToString : GateType → String
  | GateType.AND => "AND"
  | GateType.OR => "OR"
  | GateType.XOR => "XOR"
  | GateType.NAND => "NAND"
  | GateType.NOR => "NOR"

/-- `AIMove` from `src/types.ts`, kept untrusted: `JSON.parse(...) as AIMove`
performs no validation, so every field may be absent and the string fields
may hold arbitrary values. -/
structure AIMove where
  actionType : Option String
  slotId : Option Int
  gateType : Option String
  reasoning : Option String
deriving DecidableEq, Repr

/-- `board[slotId]` for an untrusted JavaScript index: defined only for
integers in `[0, length)`; for any other number the access yields
`undefined` (so that reading `.gate` on it throws). -/
def boardGet? (nodes : List BoardNode) (i : Int) : Option BoardNode :=
  if 0 ≤ i then nodes[i.toNat]? else none

/-- The body of the `performAIMove` closure in `src/App.tsx`'s AI-turn
effect, as applied to an already-awaited proposal.  `proposal = none` models
`getAIMove` rejecting; every `throw` inside the `try` (missing `slotId`,
missing/empty `gateType`, and the `TypeError` from reading `.gate` of
`board[slotId]` when `slotId` is outside `[0,6]`) lands in the `catch`,
whose safety fallback is `executeMove('DISCARD', 'P2')`.  When the proposed
slot is occupied, the source's fallback calls
`executeMove('PLACE', 'P2', players['P2'].hand[0], players['P2'].hand[0], 0)`
— passing the hand card where the slot id belongs (see `setSlot`). -/
def performAIMove (st : GameState) (rng : Nat → GateType)
    (proposal : Option AIMove) : GameState :=
  match proposal with
  | none => executeMove st rng ActionType.DISCARD PlayerId.P2 none none none
  | some m =>
    if m.actionType = some tagDiscard then
      executeMove st rng ActionType.DISCARD PlayerId.P2 none none none
    else
      match m.slotId with
      | none => executeMove st rng ActionType.DISCARD PlayerId.P2 none none none
      | some sid =>
        if m.gateType = none ∨ m.gateType = some emptyTag then
          executeMove st rng ActionType.DISCARD PlayerId.P2 none none none
        else
          match boardGet? st.board sid with
          | none => executeMove st rng ActionType.DISCARD PlayerId.P2 none none none
          | some node =>
            if node.gate.isSome then
              if st.board.any fun n => n.gate.isNone then
                executeMove st rng ActionType.PLACE PlayerId.P2
                  ((st.handP2[0]?).map Sum.inr) (st.handP2[0]?) (some 0)
              else
                executeMove st rng ActionType.DISCARD PlayerId.P2 none none none
            else
              match m.gateType with
              | some s =>
                match st.handP2.findIdx? fun g => gateToString g == s with
                | some j =>
                  executeMove st rng ActionType.PLACE PlayerId.P2
                    (some (Sum.inl sid.toNat)) (st.handP2[j]?) (some j)
                | none =>
                  executeMove st rng ActionType.PLACE PlayerId.P2
                    (some (Sum.inl sid.toNat)) (st.handP2[0]?) (some 0)
              | none => executeMove st rng ActionType.DISCARD PlayerId.P2 none none none

/-- The guard of the AI-turn `useEffect`:
`gameStarted && !winner && isAI && turn === 'P2'` (the `isThinking` flag
only serializes the effect and is not part of the state here). -/
def aiTurnStep (st : GameState) (gameStarted isAIMode : Bool)
    (rng : Nat → GateType) (proposal : Option AIMove) : GameState :=
  if gameStarted = true ∧ st.winner = none ∧ isAIMode = true ∧ st.turn = PlayerId.P2 then
    performAIMove st rng proposal
  else st

/-! ## Concrete fixtures for counterexamples and witnesses -/

/-- A board node with no computed value yet (how `INITIAL_BOARD` builds them). -/
def mkNode (i : Nat) (g : Option GateType) : BoardNode :=
  { id := i, gate := g, value := none }

/-- A random stream that always deals AND. -/
def rngAND : Nat → GateType := fun _ => GateType.AND

/-- A random stream that always deals OR. -/
def rngOR : Nat → GateType := fun _ => GateType.OR

/-- Board of the §8 validator scenario: slots 0 and 1 are occupied, slot 2 is
the first empty slot in ascending id order. -/
def scenarioBoard : List BoardNode :=
  [mkNode 0 (some GateType.AND), mkNode 1 (some GateType.OR), mkNode 2 none,
   mkNode 3 none, mkNode 4 none, mkNode 5 none, mkNode 6 none]

/-- The state of the §8 validator scenario: P2 to move with hand
`[OR, XOR, NAND]`. -/
def scenarioState : GameState :=
  { board := scenarioBoard
    inputs := [true, true, false, false, true, true, false, false]
    handP1 := [GateType.AND, GateType.AND, GateType.AND]
    handP2 := [GateType.OR, GateType.XOR, GateType.NAND]
    turn := PlayerId.P2
    winner := none }

/-- The §8 scenario proposal `{PLACE, slotId: 99, gateKind: "AND"}`. -/
def proposalSlot99 : AIMove :=
  { actionType := some tagPlace, slotId := some 99,
    gateType := some (gateToString GateType.AND), reasoning := none }

/-- A proposal that targets the occupied slot 0 with a card P2 holds. -/
def proposalOccupied : AIMove :=
  { actionType := some tagPlace, slotId := some 0,
    gateType := some (gateToString GateType.NAND), reasoning := none }

/-- A board one placement away from full: slots 1–6 hold OR, slot 0 is empty. -/
def almostFullBoard : List BoardNode :=
  [mkNode 0 none, mkNode 1 (some GateType.OR), mkNode 2 (some GateType.OR),
   mkNode 3 (some GateType.OR), mkNode 4 (some GateType.OR),
   mkNode 5 (some GateType.OR), mkNode 6 (some GateType.OR)]

/-- A state where P1's next placement at slot 0 fills the board; with all-true
inputs the root settles to 1, so that placement wins for P1. -/
def almostWonState : GameState :=
  { board := almostFullBoard
    inputs := [true, true, true, true, true, true, true, true]
    handP1 := [GateType.AND, GateType.AND, GateType.AND]
    handP2 := [GateType.OR, GateType.OR, GateType.OR]
    turn := PlayerId.P1
    winner := none }

example :
    (performAIMove scenarioState rngAND (some proposalSlot99)).handP2 =
      [GateType.AND, GateType.AND, GateType.AND] ∧
    gateAt (performAIMove scenarioState rngAND (some proposalSlot99)).board 2 = none ∧
    (performAIMove scenarioState rngAND (some proposalSlot99)).turn = PlayerId.P1 := by
  decide

example :
    (performAIMove scenarioState rngAND (some proposalOccupied)).board.map BoardNode.gate =
      scenarioState.board.map BoardNode.gate ∧
    (performAIMove scenarioState rngAND (some proposalOccupied)).handP2 =
      [GateType.XOR, GateType.NAND, GateType.AND] ∧
    (performAIMove scenarioState rngAND (some proposalOccupied)).turn = PlayerId.P1 := by
  decide

example :
    (executeMove almostWonState rngOR ActionType.PLACE PlayerId.P1
      (some (Sum.inl 0)) (some GateType.AND) (some 0)).winner = some WinResult.P1 ∧
    (executeMove almostWonState rngOR ActionType.PLACE PlayerId.P1
      (some (Sum.inl 0)) (some GateType.AND) (some 0)).handP1 =
      [GateType.AND, GateType.AND, GateType.AND] ∧
    (executeMove almostWonState rngOR ActionType.PLACE PlayerId.P1
      (some (Sum.inl 0)) (some GateType.AND) (some 0)).turn = PlayerId.P1 := by
  decide


/-- The full board of the second §8 scenario (leaves OR, slot 1 AND, slot 2
NAND, root XOR). -/
def specFullBoard : List BoardNode :=
  [mkNode 0 (some GateType.XOR), mkNode 1 (some GateType.AND),
   mkNode 2 (some GateType.NAND), mkNode 3 (some GateType.OR),
   mkNode 4 (some GateType.OR), mkNode 5 (some GateType.OR),
   mkNode 6 (some GateType.OR)]

/-- The inputs of the second §8 scenario. -/
def specInputs : List Bool :=
  [true, false, true, false, true, false, true, false]

/-- The untrusted proposal equivalent to a human P2 click on occupied slot 0
with hand card 0 (OR) selected. -/
def proposalHumanEquiv : AIMove :=
  { actionType := some tagPlace, slotId := some 0,
    gateType := some (gateToString GateType.OR), reasoning := none }

/-! ## Helper lemmas -/

/-- `evaluateBoard` unfolded: the loop runs the step for `i = 6, 5, …, 0`. -/
theorem evaluateBoard_eq_steps (nodes : List BoardNode) (inputs : List Bool) :
    evaluateBoard nodes inputs =
      evalNodeStep inputs (evalNodeStep inputs (evalNodeStep inputs (evalNodeStep inputs
        (evalNodeStep inputs (evalNodeStep inputs (evalNodeStep inputs nodes 6) 5) 4) 3) 2) 1) 0 := by
  show (List.range BOARD_SIZE).reverse.foldl (evalNodeStep inputs) nodes = _
  norm_num [BOARD_SIZE, List.range_succ]

theorem evalNodeStep_six (d0 d1 d2 d3 d4 d5 d6 : Nat)
    (g0 g1 g2 g3 g4 g5 g6 : Option GateType) (v0 v1 v2 v3 v4 v5 v6 : Option Bool)
    (i0 i1 i2 i3 i4 i5 i6 i7 : Bool) :
    evalNodeStep [i0, i1, i2, i3, i4, i5, i6, i7]
      [⟨d0, g0, v0⟩, ⟨d1, g1, v1⟩, ⟨d2, g2, v2⟩, ⟨d3, g3, v3⟩,
       ⟨d4, g4, v4⟩, ⟨d5, g5, v5⟩, ⟨d6, g6, v6⟩] 6 =
    [⟨d0, g0, v0⟩, ⟨d1, g1, v1⟩, ⟨d2, g2, v2⟩, ⟨d3, g3, v3⟩,
     ⟨d4, g4, v4⟩, ⟨d5, g5, v5⟩, ⟨d6, g6, liftGate g6 (some i6) (some i7)⟩] := by
  cases g6 <;> rfl

theorem evalNodeStep_five (d0 d1 d2 d3 d4 d5 d6 : Nat)
    (g0 g1 g2 g3 g4 g5 g6 : Option GateType) (v0 v1 v2 v3 v4 v5 v6 : Option Bool)
    (i0 i1 i2 i3 i4 i5 i6 i7 : Bool) :
    evalNodeStep [i0, i1, i2, i3, i4, i5, i6, i7]
      [⟨d0, g0, v0⟩, ⟨d1, g1, v1⟩, ⟨d2, g2, v2⟩, ⟨d3, g3, v3⟩,
       ⟨d4, g4, v4⟩, ⟨d5, g5, v5⟩, ⟨d6, g6, v6⟩] 5 =
    [⟨d0, g0, v0⟩, ⟨d1, g1, v1⟩, ⟨d2, g2, v2⟩, ⟨d3, g3, v3⟩,
     ⟨d4, g4, v4⟩, ⟨d5, g5, liftGate g5 (some i4) (some i5)⟩, ⟨d6, g6, v6⟩] := by
  cases g5 <;> rfl

theorem evalNodeStep_four (d0 d1 d2 d3 d4 d5 d6 : Nat)
    (g0 g1 g2 g3 g4 g5 g6 : Option GateType) (v0 v1 v2 v3 v4 v5 v6 : Option Bool)
    (i0 i1 i2 i3 i4 i5 i6 i7 : Bool) :
    evalNodeStep [i0, i1, i2, i3, i4, i5, i6, i7]
      [⟨d0, g0, v0⟩, ⟨d1, g1, v1⟩, ⟨d2, g2, v2⟩, ⟨d3, g3, v3⟩,
       ⟨d4, g4, v4⟩, ⟨d5, g5, v5⟩, ⟨d6, g6, v6⟩] 4 =
    [⟨d0, g0, v0⟩, ⟨d1, g1, v1⟩, ⟨d2, g2, v2⟩, ⟨d3, g3, v3⟩,
     ⟨d4, g4, liftGate g4 (some i2) (some i3)⟩, ⟨d5, g5, v5⟩, ⟨d6, g6, v6⟩] := by
  cases g4 <;> rfl

theorem evalNodeStep_three (d0 d1 d2 d3 d4 d5 d6 : Nat)
    (g0 g1 g2 g3 g4 g5 g6 : Option GateType) (v0 v1 v2 v3 v4 v5 v6 : Option Bool)
    (i0 i1 i2 i3 i4 i5 i6 i7 : Bool) :
    evalNodeStep [i0, i1, i2, i3, i4, i5, i6, i7]
      [⟨d0, g0, v0⟩, ⟨d1, g1, v1⟩, ⟨d2, g2, v2⟩, ⟨d3, g3, v3⟩,
       ⟨d4, g4, v4⟩, ⟨d5, g5, v5⟩, ⟨d6, g6, v6⟩] 3 =
    [⟨d0, g0, v0⟩, ⟨d1, g1, v1⟩, ⟨d2, g2, v2⟩, ⟨d3, g3, liftGate g3 (some i0) (some i1)⟩,
     ⟨d4, g4, v4⟩, ⟨d5, g5, v5⟩, ⟨d6, g6, v6⟩] := by
  cases g3 <;> rfl

theorem evalNodeStep_two (inputs : List Bool) (d0 d1 d2 d3 d4 d5 d6 : Nat)
    (g0 g1 g2 g3 g4 g5 g6 : Option GateType) (v0 v1 v2 v3 v4 v5 v6 : Option Bool) :
    evalNodeStep inputs
      [⟨d0, g0, v0⟩, ⟨d1, g1, v1⟩, ⟨d2, g2, v2⟩, ⟨d3, g3, v3⟩,
       ⟨d4, g4, v4⟩, ⟨d5, g5, v5⟩, ⟨d6, g6, v6⟩] 2 =
    [⟨d0, g0, v0⟩, ⟨d1, g1, v1⟩, ⟨d2, g2, liftGate g2 v5 v6⟩, ⟨d3, g3, v3⟩,
     ⟨d4, g4, v4⟩, ⟨d5, g5, v5⟩, ⟨d6, g6, v6⟩] := by
  cases g2
  · rfl
  · cases v5 <;> cases v6 <;> rfl

theorem evalNodeStep_one (inputs : List Bool) (d0 d1 d2 d3 d4 d5 d6 : Nat)
    (g0 g1 g2 g3 g4 g5 g6 : Option GateType) (v0 v1 v2 v3 v4 v5 v6 : Option Bool) :
    evalNodeStep inputs
      [⟨d0, g0, v0⟩, ⟨d1, g1, v1⟩, ⟨d2, g2, v2⟩, ⟨d3, g3, v3⟩,
       ⟨d4, g4, v4⟩, ⟨d5, g5, v5⟩, ⟨d6, g6, v6⟩] 1 =
    [⟨d0, g0, v0⟩, ⟨d1, g1, liftGate g1 v3 v4⟩, ⟨d2, g2, v2⟩, ⟨d3, g3, v3⟩,
     ⟨d4, g4, v4⟩, ⟨d5, g5, v5⟩, ⟨d6, g6, v6⟩] := by
  cases g1
  · rfl
  · cases v3 <;> cases v4 <;> rfl

theorem evalNodeStep_zero (inputs : List Bool) (d0 d1 d2 d3 d4 d5 d6 : Nat)
    (g0 g1 g2 g3 g4 g5 g6 : Option GateType) (v0 v1 v2 v3 v4 v5 v6 : Option Bool) :
    evalNodeStep inputs
      [⟨d0, g0, v0⟩, ⟨d1, g1, v1⟩, ⟨d2, g2, v2⟩, ⟨d3, g3, v3⟩,
       ⟨d4, g4, v4⟩, ⟨d5, g5, v5⟩, ⟨d6, g6, v6⟩] 0 =
    [⟨d0, g0, liftGate g0 v1 v2⟩, ⟨d1, g1, v1⟩, ⟨d2, g2, v2⟩, ⟨d3, g3, v3⟩,
     ⟨d4, g4, v4⟩, ⟨d5, g5, v5⟩, ⟨d6, g6, v6⟩] := by
  cases g0
  · rfl
  · cases v1 <;> cases v2 <;> rfl

/-- Closed form of `evaluateBoard` on a 7-node board with 8 inputs: ids and
gates pass through unchanged and each `value` becomes the `liftGate` tree of
the gates and inputs alone (old `value` fields never occur on the right). -/
theorem evaluateBoard_explicit (d0 d1 d2 d3 d4 d5 d6 : Nat)
    (g0 g1 g2 g3 g4 g5 g6 : Option GateType) (v0 v1 v2 v3 v4 v5 v6 : Option Bool)
    (i0 i1 i2 i3 i4 i5 i6 i7 : Bool) :
    evaluateBoard
      [⟨d0, g0, v0⟩, ⟨d1, g1, v1⟩, ⟨d2, g2, v2⟩, ⟨d3, g3, v3⟩,
       ⟨d4, g4, v4⟩, ⟨d5, g5, v5⟩, ⟨d6, g6, v6⟩]
      [i0, i1, i2, i3, i4, i5, i6, i7] =
    [⟨d0, g0, liftGate g0
        (liftGate g1 (liftGate g3 (some i0) (some i1)) (liftGate g4 (some i2) (some i3)))
        (liftGate g2 (liftGate g5 (some i4) (some i5)) (liftGate g6 (some i6) (some i7)))⟩,
     ⟨d1, g1, liftGate g1 (liftGate g3 (some i0) (some i1)) (liftGate g4 (some i2) (some i3))⟩,
     ⟨d2, g2, liftGate g2 (liftGate g5 (some i4) (some i5)) (liftGate g6 (some i6) (some i7))⟩,
     ⟨d3, g3, liftGate g3 (some i0) (some i1)⟩,
     ⟨d4, g4, liftGate g4 (some i2) (some i3)⟩,
     ⟨d5, g5, liftGate g5 (some i4) (some i5)⟩,
     ⟨d6, g6, liftGate g6 (some i6) (some i7)⟩] := by
  rw [evaluateBoard_eq_steps, evalNodeStep_six, evalNodeStep_five, evalNodeStep_four,
    evalNodeStep_three, evalNodeStep_two, evalNodeStep_one, evalNodeStep_zero]

/-- A list of length 7 is a literal 7-element list. -/
theorem list_eq_of_length_seven {α : Type} (l : List α) (h : l.length = 7) :
    ∃ x0 x1 x2 x3 x4 x5 x6, l = [x0, x1, x2, x3, x4, x5, x6] := by
  cases l with
  | nil => exact absurd h (by simp)
  | cons x0 t0 =>
  cases t0 with
  | nil => exact absurd h (by simp)
  | cons x1 t1 =>
  cases t1 with
  | nil => exact absurd h (by simp)
  | cons x2 t2 =>
  cases t2 with
  | nil => exact absurd h (by simp)
  | cons x3 t3 =>
  cases t3 with
  | nil => exact absurd h (by simp)
  | cons x4 t4 =>
  cases t4 with
  | nil => exact absurd h (by simp)
  | cons x5 t5 =>
  cases t5 with
  | nil => exact absurd h (by simp)
  | cons x6 t6 =>
  cases t6 with
  | nil => exact ⟨x0, x1, x2, x3, x4, x5, x6, rfl⟩
  | cons x7 t7 => exact absurd h (by simp)

/-- A list of length 8 is a literal 8-element list. -/
theorem list_eq_of_length_eight {α : Type} (l : List α) (h : l.length = 8) :
    ∃ x0 x1 x2 x3 x4 x5 x6 x7, l = [x0, x1, x2, x3, x4, x5, x6, x7] := by
  cases l with
  | nil => exact absurd h (by simp)
  | cons x0 t0 =>
    have h7 : t0.length = 7 := by simpa using h
    obtain ⟨x1, x2, x3, x4, x5, x6, x7, hrest⟩ := list_eq_of_length_seven t0 h7
    exact ⟨x0, x1, x2, x3, x4, x5, x6, x7, by rw [hrest]⟩

example :
    (evaluateBoard
      [⟨0, none, none⟩, ⟨1, none, none⟩, ⟨2, none, none⟩,
       ⟨3, some GateType.AND, none⟩, ⟨4, some GateType.AND, none⟩,
       ⟨5, none, none⟩, ⟨6, none, none⟩]
      [true, true, false, false, true, true, false, false]).map BoardNode.value =
    [none, none, none, some true, some false, none, none] := by decide

/-- `liftGate` is `none` exactly when the gate or an operand is missing. -/
theorem liftGate_eq_none_iff (g : Option GateType) (a b : Option Bool) :
    liftGate g a b = none ↔ g = none ∨ a = none ∨ b = none := by
  cases g <;> cases a <;> cases b <;> simp [liftGate]

theorem liftGate_some (t : GateType) (a b : Bool) :
    liftGate (some t) (some a) (some b) = some (evaluateGate t a b) := rfl

theorem setHand_hand_same (st : GameState) (pid : PlayerId) (h : List GateType) :
    (setHand st pid h).hand pid = h := by
  cases pid <;> rfl

theorem setHand_board (st : GameState) (pid : PlayerId) (h : List GateType) :
    (setHand st pid h).board = st.board := by
  cases pid <;> rfl

theorem setHand_winner (st : GameState) (pid : PlayerId) (h : List GateType) :
    (setHand st pid h).winner = st.winner := by
  cases pid <;> rfl

/-- Running the refill loop on a 2-card hand appends exactly one fresh draw. -/
theorem refill_two (rng : Nat → GateType) (l : List GateType) (h : l.length = 2) :
    refill rng 0 3 l = l ++ [rng 0] := by
  simp [refill, h]

/-- `gateToString` never yields the empty string. -/
theorem gateToString_ne_empty (g : GateType) : gateToString g ≠ emptyTag := by
  cases g <;> decide

/-! ## Claims -/

/-- C6: `checkWinCondition` returns no winner whenever at least one of the
7 slots has no gate; when every slot has a gate, it returns P1 exactly when
the root value is 1 (`some true`) and P2 exactly when the root value is 0
(`some false`). -/
theorem checkWin_spec (nodes : List BoardNode) (hn : nodes.length = 7) :
    ((∃ n ∈ nodes, n.gate = none) → checkWinCondition nodes = none) ∧
    ((∀ n ∈ nodes, n.gate.isSome) →
      (checkWinCondition nodes = some WinResult.P1 ↔ valueAt nodes 0 = some true) ∧
      (checkWinCondition nodes = some WinResult.P2 ↔ valueAt nodes 0 = some false)) := by
  constructor
  · rintro ⟨n, hmem, hgate⟩
    rw [checkWinCondition, if_neg]
    intro hall
    rw [List.all_eq_true] at hall
    have := hall n hmem
    rw [hgate] at this
    simp at this
  · intro hall
    have hfull : (nodes.all fun n => n.gate.isSome) = true := by
      rw [List.all_eq_true]
      exact fun n hmem => hall n hmem
    rw [checkWinCondition, if_pos hfull, valueAt]
    rcases hv : (nodes[0]?).bind BoardNode.value with _ | b
    · simp
    · cases b <;> simp

/-- Witness for C6: the scenario board (slots 2–6 empty) has no winner. -/
theorem checkWin_spec_witness : checkWinCondition scenarioBoard = none :=
  (checkWin_spec scenarioBoard (by decide)).1 (by decide)


/-- On a board whose head node carries a gate and a set value and whose tail
is fully gated, `checkWinCondition` maps the root bit to the winner. -/
theorem checkWin_cons_some (d : Nat) (t : GateType) (b : Bool) (rest : List BoardNode)
    (hrest : ∀ n ∈ rest, n.gate.isSome) :
    checkWinCondition ({ id := d, gate := some t, value := some b } :: rest) =
      some (if b then WinResult.P1 else WinResult.P2) := by
  rw [checkWinCondition, if_pos]
  · cases b <;> simp
  · rw [List.all_eq_true]
    intro n hmem
    rcases List.mem_cons.mp hmem with h | h
    · subst h; rfl
    · exact hrest n h

/-- C7: on a board in which all 7 gates are set, with an 8-bit input vector,
`evaluateBoard` produces a set (0/1) root value, never unset; consequently
the DRAW branch of `checkWinCondition` is unreachable on an evaluated full
board. -/
theorem fullBoard_root_set (nodes : List BoardNode) (inputs : List Bool)
    (hn : nodes.length = 7) (hi : inputs.length = 8)
    (hfull : ∀ n ∈ nodes, n.gate.isSome) :
    (valueAt (evaluateBoard nodes inputs) 0).isSome ∧
      checkWinCondition (evaluateBoard nodes inputs) ≠ some WinResult.DRAW := by
  obtain ⟨n0, n1, n2, n3, n4, n5, n6, rfl⟩ := list_eq_of_length_seven nodes hn
  obtain ⟨i0, i1, i2, i3, i4, i5, i6, i7, rfl⟩ := list_eq_of_length_eight inputs hi
  obtain ⟨d0, g0, v0⟩ := n0
  obtain ⟨d1, g1, v1⟩ := n1
  obtain ⟨d2, g2, v2⟩ := n2
  obtain ⟨d3, g3, v3⟩ := n3
  obtain ⟨d4, g4, v4⟩ := n4
  obtain ⟨d5, g5, v5⟩ := n5
  obtain ⟨d6, g6, v6⟩ := n6
  simp only [List.mem_cons, List.not_mem_nil, or_false, forall_eq_or_imp, forall_eq] at hfull
  obtain ⟨h0, h1, h2, h3, h4, h5, h6⟩ := hfull
  obtain ⟨t0, rfl⟩ := Option.isSome_iff_exists.mp h0
  obtain ⟨t1, rfl⟩ := Option.isSome_iff_exists.mp h1
  obtain ⟨t2, rfl⟩ := Option.isSome_iff_exists.mp h2
  obtain ⟨t3, rfl⟩ := Option.isSome_iff_exists.mp h3
  obtain ⟨t4, rfl⟩ := Option.isSome_iff_exists.mp h4
  obtain ⟨t5, rfl⟩ := Option.isSome_iff_exists.mp h5
  obtain ⟨t6, rfl⟩ := Option.isSome_iff_exists.mp h6
  rw [evaluateBoard_explicit]
  simp only [liftGate_some]
  constructor
  · simp [valueAt]
  · rw [checkWin_cons_some]
    · split <;> simp
    · intro n hmem
      fin_cases hmem <;> rfl

/-- Witness for C7: the full §8 scenario board has a set root value and a
non-DRAW outcome. -/
theorem fullBoard_root_set_witness :
    (valueAt (evaluateBoard specFullBoard specInputs) 0).isSome ∧
      checkWinCondition (evaluateBoard specFullBoard specInputs) ≠ some WinResult.DRAW :=
  fullBoard_root_set specFullBoard specInputs (by decide) (by decide) (by decide)

/-- `executeMove` on a fully populated `PLACE` call runs the `PLACE` branch. -/
theorem executeMove_place (st : GameState) (rng : Nat → GateType) (pid : PlayerId)
    (sk : Nat ⊕ GateType) (g : GateType) (idx : Nat) :
    executeMove st rng ActionType.PLACE pid (some sk) (some g) (some idx) =
      executeMovePlace st rng pid sk g idx := rfl

/-- `executeMove` on a `DISCARD` call runs the `DISCARD` branch whatever the
other fields hold. -/
theorem executeMove_discard (st : GameState) (rng : Nat → GateType) (pid : PlayerId)
    (sk : Option (Nat ⊕ GateType)) (g : Option GateType) (idx : Option Nat) :
    executeMove st rng ActionType.DISCARD pid sk g idx = executeMoveDiscard st rng pid := rfl

/-- The winning-placement path: the board is evaluated, the winner recorded,
and the function returns before touching the hand or the turn. -/
theorem executeMovePlace_win (st : GameState) (rng : Nat → GateType) (pid : PlayerId)
    (sk : Nat ⊕ GateType) (g : GateType) (idx : Nat) (w : WinResult)
    (h : checkWinCondition (evaluateBoard (setSlot st.board sk g) st.inputs) = some w) :
    executeMovePlace st rng pid sk g idx =
      { st with board := evaluateBoard (setSlot st.board sk g) st.inputs,
                winner := some w } := by
  unfold executeMovePlace
  rw [h]

/-- The non-winning placement path: board evaluated, used card removed, hand
refilled, turn passed. -/
theorem executeMovePlace_noWin (st : GameState) (rng : Nat → GateType) (pid : PlayerId)
    (sk : Nat ⊕ GateType) (g : GateType) (idx : Nat)
    (h : checkWinCondition (evaluateBoard (setSlot st.board sk g) st.inputs) = none) :
    executeMovePlace st rng pid sk g idx =
      { setHand { st with board := evaluateBoard (setSlot st.board sk g) st.inputs } pid
          (refill rng 0 3 ((st.hand pid).eraseIdx idx)) with
        turn := otherPlayer pid } := by
  unfold executeMovePlace
  rw [h]

/-- Every `executeMove` either leaves the board alone or replaces it with an
`evaluateBoard` image: the board is only ever changed by re-evaluation. -/
theorem executeMove_board_shape (st : GameState) (rng : Nat → GateType)
    (act : ActionType) (pid : PlayerId) (sk : Option (Nat ⊕ GateType))
    (g : Option GateType) (idx : Option Nat) :
    (executeMove st rng act pid sk g idx).board = st.board ∨
      ∃ b, (executeMove st rng act pid sk g idx).board = evaluateBoard b st.inputs := by
  cases act
  case DISCARD =>
    left
    rw [executeMove_discard]
    cases pid <;> simp [executeMoveDiscard, setHand]
  case PLACE =>
    cases sk with
    | none => left; rfl
    | some sk =>
      cases g with
      | none => left; rfl
      | some g =>
        cases idx with
        | none => left; rfl
        | some idx =>
          right
          refine ⟨setSlot st.board sk g, ?_⟩
          rw [executeMove_place]
          rcases h : checkWinCondition (evaluateBoard (setSlot st.board sk g) st.inputs)
            with _ | w
          · rw [executeMovePlace_noWin st rng pid sk g idx h]
            cases pid <;> simp [setHand]
          · rw [executeMovePlace_win st rng pid sk g idx w h]

/-- C8: after every run of `evaluateBoard` — and hence after every
`placeGate`/`discardHand`, since `executeMove` only ever changes the board by
re-evaluation (third conjunct) — for every slot `i` in `[0,6]`: `value[i]`
is unset iff `gate[i]` is unset, or `i < 3` and `value[2i+1]` or
`value[2i+2]` is unset; otherwise `value[i]` equals the gate's boolean table
(`evaluateGate`: AND = A∧B, OR = A∨B, XOR = A≠B, NAND = ¬(A∧B),
NOR = ¬(A∨B)) applied to its two operands (input bits `(i-3)*2` and
`(i-3)*2+1` for `i ≥ 3`, children's values for `i < 3`). -/
theorem evaluate_value_invariant (nodes : List BoardNode) (inputs : List Bool)
    (hn : nodes.length = 7) (hi : inputs.length = 8) (i : Nat) (h7 : i < 7) :
    (valueAt (evaluateBoard nodes inputs) i = none ↔
      (gateAt (evaluateBoard nodes inputs) i = none ∨
        (i < 3 ∧ (valueAt (evaluateBoard nodes inputs) (2 * i + 1) = none ∨
          valueAt (evaluateBoard nodes inputs) (2 * i + 2) = none)))) ∧
    (∀ g a b, gateAt (evaluateBoard nodes inputs) i = some g →
      operand (evaluateBoard nodes inputs) inputs i 0 = some a →
      operand (evaluateBoard nodes inputs) inputs i 1 = some b →
      valueAt (evaluateBoard nodes inputs) i = some (evaluateGate g a b)) ∧
    (∀ (st : GameState) (rng : Nat → GateType) (act : ActionType) (pid : PlayerId)
      (sk : Option (Nat ⊕ GateType)) (gt : Option GateType) (ix : Option Nat),
      (executeMove st rng act pid sk gt ix).board = st.board ∨
        ∃ b, (executeMove st rng act pid sk gt ix).board = evaluateBoard b st.inputs) := by
  obtain ⟨n0, n1, n2, n3, n4, n5, n6, rfl⟩ := list_eq_of_length_seven nodes hn
  obtain ⟨j0, j1, j2, j3, j4, j5, j6, j7, rfl⟩ := list_eq_of_length_eight inputs hi
  obtain ⟨d0, g0, v0⟩ := n0
  obtain ⟨d1, g1, v1⟩ := n1
  obtain ⟨d2, g2, v2⟩ := n2
  obtain ⟨d3, g3, v3⟩ := n3
  obtain ⟨d4, g4, v4⟩ := n4
  obtain ⟨d5, g5, v5⟩ := n5
  obtain ⟨d6, g6, v6⟩ := n6
  rw [evaluateBoard_explicit]
  refine ⟨?_, ?_, fun st rng act pid sk gt ix =>
    executeMove_board_shape st rng act pid sk gt ix⟩
  · interval_cases i <;> simp [valueAt, gateAt, liftGate_eq_none_iff]
  · intro g a b hg hA hB
    interval_cases i <;>
      simp only [gateAt, valueAt, operand] at hg hA hB ⊢ <;>
      simp at hg hA hB ⊢ <;>
      subst hg <;>
      rw [hA, hB] <;>
      rfl

/-- Witness for C8: on the evaluated full §8 scenario board, slot 3 (an OR
leaf over input bits 0 and 1 = 1,0) carries the gate table's output. -/
theorem evaluate_value_invariant_witness :
    valueAt (evaluateBoard specFullBoard specInputs) 3 = some true :=
  (evaluate_value_invariant specFullBoard specInputs (by decide) (by decide) 3
      (by decide)).2.1 GateType.OR true false (by decide) (by decide) (by decide)

/-- C9: `evaluateBoard` is pure, deterministic and idempotent: it is a Lean
function (so it cannot mutate its argument and equal arguments give equal
results), its output is determined by the ids, the gate assignment and the
inputs alone — the pre-existing `value` fields never influence it — and
evaluating an already-evaluated board yields identical values. -/
theorem evaluate_pure_idempotent (b b2 : List BoardNode) (inputs : List Bool)
    (hb : b.length = 7) (hb2 : b2.length = 7) (hi : inputs.length = 8)
    (hid : ∀ i, idAt b i = idAt b2 i) (hg : ∀ i, gateAt b i = gateAt b2 i) :
    evaluateBoard b inputs = evaluateBoard b2 inputs ∧
      evaluateBoard (evaluateBoard b inputs) inputs = evaluateBoard b inputs := by
  obtain ⟨n0, n1, n2, n3, n4, n5, n6, rfl⟩ := list_eq_of_length_seven b hb
  obtain ⟨m0, m1, m2, m3, m4, m5, m6, rfl⟩ := list_eq_of_length_seven b2 hb2
  obtain ⟨j0, j1, j2, j3, j4, j5, j6, j7, rfl⟩ := list_eq_of_length_eight inputs hi
  obtain ⟨d0, g0, v0⟩ := n0
  obtain ⟨d1, g1, v1⟩ := n1
  obtain ⟨d2, g2, v2⟩ := n2
  obtain ⟨d3, g3, v3⟩ := n3
  obtain ⟨d4, g4, v4⟩ := n4
  obtain ⟨d5, g5, v5⟩ := n5
  obtain ⟨d6, g6, v6⟩ := n6
  obtain ⟨e0, f0, w0⟩ := m0
  obtain ⟨e1, f1, w1⟩ := m1
  obtain ⟨e2, f2, w2⟩ := m2
  obtain ⟨e3, f3, w3⟩ := m3
  obtain ⟨e4, f4, w4⟩ := m4
  obtain ⟨e5, f5, w5⟩ := m5
  obtain ⟨e6, f6, w6⟩ := m6
  have hd0 := hid 0; have hd1 := hid 1; have hd2 := hid 2; have hd3 := hid 3
  have hd4 := hid 4; have hd5 := hid 5; have hd6 := hid 6
  have hg0 := hg 0; have hg1 := hg 1; have hg2 := hg 2; have hg3 := hg 3
  have hg4 := hg 4; have hg5 := hg 5; have hg6 := hg 6
  simp only [idAt, gateAt] at hd0 hd1 hd2 hd3 hd4 hd5 hd6 hg0 hg1 hg2 hg3 hg4 hg5 hg6
  simp at hd0 hd1 hd2 hd3 hd4 hd5 hd6 hg0 hg1 hg2 hg3 hg4 hg5 hg6
  subst hd0; subst hd1; subst hd2; subst hd3; subst hd4; subst hd5; subst hd6
  subst hg0; subst hg1; subst hg2; subst hg3; subst hg4; subst hg5; subst hg6
  rw [evaluateBoard_explicit, evaluateBoard_explicit]
  exact ⟨rfl, by rw [evaluateBoard_explicit]⟩

/-- Witness for C9: evaluating the §8 scenario board twice equals evaluating
it once. -/
theorem evaluate_pure_idempotent_witness :
    evaluateBoard (evaluateBoard scenarioBoard specInputs) specInputs =
      evaluateBoard scenarioBoard specInputs :=
  (evaluate_pure_idempotent scenarioBoard scenarioBoard specInputs (by decide)
      (by decide) (by decide) (fun _ => rfl) (fun _ => rfl)).2

/-- Projections of a turn-flip record update. -/
theorem hand_turn_update (st : GameState) (pid t : PlayerId) :
    ({ st with turn := t } : GameState).hand pid = st.hand pid := by
  cases pid <;> rfl

/-- C3 (amended): a non-winning application of the `PLACE` branch leaves the
acting player's hand at exactly 3 cards, having removed the card at the given
index (which holds the placed gate) and appended one freshly drawn gate; a
placement that sets the winner returns early and leaves the hand unchanged
(hence still 3 cards), drawing nothing. -/
theorem placeGate_hand (st : GameState) (rng : Nat → GateType) (pid : PlayerId)
    (sk : Nat ⊕ GateType) (g : GateType) (idx : Nat)
    (hlen : (st.hand pid).length = 3) (hidx : idx < 3)
    (hcard : (st.hand pid)[idx]? = some g) :
    ((executeMove st rng ActionType.PLACE pid (some sk) (some g) (some idx)).hand pid).length
        = 3 ∧
    (checkWinCondition (evaluateBoard (setSlot st.board sk g) st.inputs) = none →
      (executeMove st rng ActionType.PLACE pid (some sk) (some g) (some idx)).hand pid =
        (st.hand pid).eraseIdx idx ++ [rng 0]) ∧
    (∀ w, checkWinCondition (evaluateBoard (setSlot st.board sk g) st.inputs) = some w →
      (executeMove st rng ActionType.PLACE pid (some sk) (some g) (some idx)).hand pid =
        st.hand pid) := by
  have hErase : ((st.hand pid).eraseIdx idx).length = 2 := by
    rw [List.length_eraseIdx]
    simp [hlen, hidx]
  have hRefill := refill_two rng ((st.hand pid).eraseIdx idx) hErase
  rw [executeMove_place]
  rcases hwin : checkWinCondition (evaluateBoard (setSlot st.board sk g) st.inputs) with _ | w
  · rw [executeMovePlace_noWin st rng pid sk g idx hwin]
    refine ⟨?_, fun _ => ?_, fun w hw => ?_⟩
    · cases pid <;>
        simp only [GameState.hand] at hErase hRefill <;>
        simp [setHand, GameState.hand, hRefill, hErase]
    · cases pid <;>
        simp only [GameState.hand] at hRefill <;>
        simp [setHand, GameState.hand, hRefill]
    · simp at hw
  · rw [executeMovePlace_win st rng pid sk g idx w hwin]
    refine ⟨?_, fun hnone => ?_, fun w2 hw2 => ?_⟩
    · cases pid <;> simp_all [GameState.hand]
    · simp at hnone
    · cases pid <;> simp [GameState.hand]

/-- Counterexample for C3 as stated: the placement of AND at slot 0 of
`almostWonState` fills the last empty slot and sets the winner, and the
acting player's hand is NOT "one instance removed, one fresh gate appended"
— the early return leaves it untouched ([AND, AND, AND] instead of the
predicted [AND, AND, OR] with an all-OR random stream). -/
theorem placeGate_hand_counterexample :
    (executeMove almostWonState rngOR ActionType.PLACE PlayerId.P1
        (some (Sum.inl 0)) (some GateType.AND) (some 0)).winner = some WinResult.P1 ∧
    (executeMove almostWonState rngOR ActionType.PLACE PlayerId.P1
        (some (Sum.inl 0)) (some GateType.AND) (some 0)).handP1 ≠
      almostWonState.handP1.eraseIdx 0 ++ [rngOR 0] := by
  decide

/-- Witness for C3: a non-winning placement by P2 from the scenario state
removes the used card and draws one fresh gate. -/
theorem placeGate_hand_witness :
    (executeMove scenarioState rngAND ActionType.PLACE PlayerId.P2
        (some (Sum.inl 2)) (some GateType.OR) (some 0)).hand PlayerId.P2 =
      [GateType.XOR, GateType.NAND, GateType.AND] := by
  have h := (placeGate_hand scenarioState rngAND PlayerId.P2 (Sum.inl 2) GateType.OR 0
      (by decide) (by decide) (by decide)).2.1 (by decide)
  rw [h]
  decide

/-- C5 (amended): `executeMove` itself performs no precondition checking and
raises no error: applied directly with the target slot occupied (or with the
winner already set) it proceeds, overwriting the slot's gate and changing the
state; precondition enforcement lives solely in the callers, which skip the
call silently — `handleSlotClick` and `handleDiscardHand` return the state
unchanged once `winner` is set — rather than fail with an error. -/
theorem executeMove_no_preconditions (st : GameState) (rng : Nat → GateType)
    (pid : PlayerId) (sid : Nat) (node : BoardNode) (g : GateType) (idx : Nat)
    (hnode : st.board[sid]? = some node) :
    (executeMove st rng ActionType.PLACE pid (some (Sum.inl sid)) (some g) (some idx)).board =
      evaluateBoard (st.board.set sid { node with gate := some g }) st.inputs ∧
    (st.winner.isSome →
      (∀ sel, handleSlotClick st rng sel sid = st) ∧ handleDiscardHand st rng = st) := by
  constructor
  · rw [executeMove_place]
    have hset : setSlot st.board (Sum.inl sid) g =
        st.board.set sid { node with gate := some g } := by
      simp [setSlot, hnode]
    rcases hwin : checkWinCondition (evaluateBoard (setSlot st.board (Sum.inl sid) g) st.inputs)
      with _ | w
    · rw [executeMovePlace_noWin st rng pid (Sum.inl sid) g idx hwin]
      cases pid <;> simp [setHand, hset]
    · rw [executeMovePlace_win st rng pid (Sum.inl sid) g idx w hwin]
      simp [hset]
  · intro hw
    constructor
    · intro sel
      simp [handleSlotClick, hw]
    · simp [handleDiscardHand, hw]

/-- Counterexample for C5 as stated: applying `executeMove` directly to the
occupied slot 0 of the scenario state (gate AND already there, and OR not
even in P1's hand) does not fail and does not leave the state unchanged — it
overwrites slot 0 with OR. -/
theorem executeMove_no_preconditions_counterexample :
    executeMove scenarioState rngAND ActionType.PLACE PlayerId.P1
        (some (Sum.inl 0)) (some GateType.OR) (some 0) ≠ scenarioState ∧
    gateAt (executeMove scenarioState rngAND ActionType.PLACE PlayerId.P1
        (some (Sum.inl 0)) (some GateType.OR) (some 0)).board 0 = some GateType.OR := by
  decide

/-- Witness for C5: the direct call on occupied slot 0 of the scenario state
rewrites the board exactly as the unconditional set-then-evaluate does. -/
theorem executeMove_no_preconditions_witness :
    (executeMove scenarioState rngAND ActionType.PLACE PlayerId.P1
        (some (Sum.inl 0)) (some GateType.OR) (some 0)).board =
      evaluateBoard (scenarioState.board.set 0
        { mkNode 0 (some GateType.AND) with gate := some GateType.OR })
        scenarioState.inputs :=
  (executeMove_no_preconditions scenarioState rngAND PlayerId.P1 0
      (mkNode 0 (some GateType.AND)) GateType.OR 0 (by decide)).1

/-- C10: once `winner` is set the state is terminal — every further action
attempt (`handleSlotClick`, `handleDiscardHand`, the AI-turn effect) returns
the state unchanged — and the winning placement itself neither advances
`currentPlayer` nor touches either hand. -/
theorem winner_terminal (st : GameState) (rng : Nat → GateType) :
    (st.winner.isSome →
      (∀ sel sid, handleSlotClick st rng sel sid = st) ∧
      handleDiscardHand st rng = st ∧
      (∀ gs ai p, aiTurnStep st gs ai rng p = st)) ∧
    (∀ pid sk g idx w,
      checkWinCondition (evaluateBoard (setSlot st.board sk g) st.inputs) = some w →
      (executeMove st rng ActionType.PLACE pid (some sk) (some g) (some idx)).turn = st.turn ∧
      (executeMove st rng ActionType.PLACE pid (some sk) (some g) (some idx)).handP1 =
        st.handP1 ∧
      (executeMove st rng ActionType.PLACE pid (some sk) (some g) (some idx)).handP2 =
        st.handP2 ∧
      (executeMove st rng ActionType.PLACE pid (some sk) (some g) (some idx)).winner =
        some w) := by
  constructor
  · intro hw
    refine ⟨fun sel sid => ?_, ?_, fun gs ai p => ?_⟩
    · simp [handleSlotClick, hw]
    · simp [handleDiscardHand, hw]
    · rw [aiTurnStep, if_neg]
      rintro ⟨-, hnone, -, -⟩
      rw [hnone] at hw
      simp at hw
  · intro pid sk g idx w hwin
    rw [executeMove_place, executeMovePlace_win st rng pid sk g idx w hwin]
    exact ⟨rfl, rfl, rfl, rfl⟩

/-- Witness for C10: with the winner set on the scenario state a discard
attempt is ignored, and the winning placement from `almostWonState` leaves
the turn with P1. -/
theorem winner_terminal_witness :
    handleDiscardHand { scenarioState with winner := some WinResult.P1 } rngAND =
      { scenarioState with winner := some WinResult.P1 } ∧
    (executeMove almostWonState rngOR ActionType.PLACE PlayerId.P1
        (some (Sum.inl 0)) (some GateType.AND) (some 0)).turn = almostWonState.turn := by
  constructor
  · exact ((winner_terminal { scenarioState with winner := some WinResult.P1 }
      rngAND).1 (by decide)).2.1
  · exact ((winner_terminal almostWonState rngOR).2 PlayerId.P1 (Sum.inl 0)
      GateType.AND 0 WinResult.P1 (by decide)).1

/-- C4 (amended): a human PLACE targeting an occupied slot is ignored (state
unchanged, no turn consumed) rather than being repaired by the validation
policy; the human and automated paths coincide only on valid placements:
when the clicked slot is empty and the selected card index is the first
occurrence of that card in P2's hand, the human click produces exactly the
transition of the automated proposal naming that slot and card. -/
theorem human_routing (st : GameState) (rng : Nat → GateType) :
    (∀ sel sid node, st.board[sid]? = some node → node.gate.isSome →
      handleSlotClick st rng (some sel) sid = st) ∧
    (∀ (sid : Nat) node idx g, st.winner = none → st.turn = PlayerId.P2 →
      st.board[sid]? = some node → node.gate = none →
      st.handP2[idx]? = some g →
      (st.handP2.findIdx? fun x => gateToString x == gateToString g) = some idx →
      handleSlotClick st rng (some idx) sid =
        performAIMove st rng (some
          { actionType := some tagPlace, slotId := some (sid : Int),
            gateType := some (gateToString g), reasoning := none })) := by
  constructor
  · intro sel sid node hnode hgate
    by_cases hw : st.winner.isSome
    · simp [handleSlotClick, hw]
    · simp [handleSlotClick, hw, hnode, hgate]
  · intro sid node idx g hwin hturn hnode hgate hhand hfind
    have hbg : boardGet? st.board (sid : Int) = some node := by
      simp [boardGet?, Int.toNat_natCast, hnode]
    simp [handleSlotClick, performAIMove, hwin, hnode, hgate, hturn, hhand, hfind, hbg,
      GameState.hand, Int.toNat_natCast, gateToString_ne_empty g,
      show tagPlace ≠ tagDiscard by decide]

/-- Counterexample for C4 as stated: on the scenario state, the human click
on occupied slot 0 (card 0 selected) is a no-op, while the §4.3-routed
automated proposal naming the same slot and card consumes the turn — the two
paths are not the same policy, and the human PLACE is not repaired to the
first empty slot (slot 2 stays empty, the turn stays with P2). -/
theorem human_routing_counterexample :
    handleSlotClick scenarioState rngAND (some 0) 0 = scenarioState ∧
    performAIMove scenarioState rngAND (some proposalHumanEquiv) ≠ scenarioState := by
  decide

/-- Witness for C4: a human P2 click on the empty slot 2 with card 0 (OR)
selected coincides with the automated proposal {PLACE, 2, OR}. -/
theorem human_routing_witness :
    handleSlotClick scenarioState rngAND (some 0) 2 =
      performAIMove scenarioState rngAND (some
        { actionType := some tagPlace, slotId := some 2,
          gateType := some (gateToString GateType.OR), reasoning := none }) :=
  (human_routing scenarioState rngAND).2 2 (mkNode 2 none) 0 GateType.OR
    (by decide) (by decide) (by decide) (by decide) (by decide) (by decide)

/-- C1 (amended): for a proposal whose tag is not DISCARD, an absent
`slotId`, or a `slotId` outside `[0,6]` (reading `board[slotId].gate` throws
and the catch falls back), resolves the turn to a DISCARD — fresh 3-card
hand for P2, turn passed to P1, board untouched — and so does an absent or
empty `gateKind`; the first-card substitution happens only when the proposed
slot is in range and empty: the hallucinated gate is replaced by hand card 0
and placed at the proposed slot, not at the first empty slot. -/
theorem proposal_repair_policy (st : GameState) (rng : Nat → GateType) (m : AIMove)
    (htag : m.actionType ≠ some tagDiscard) :
    ((m.slotId = none ∨ ∃ sid, m.slotId = some sid ∧ boardGet? st.board sid = none) →
      performAIMove st rng (some m) =
        { st with handP2 := [rng 0, rng 1, rng 2], turn := PlayerId.P1 }) ∧
    ((m.gateType = none ∨ m.gateType = some emptyTag) →
      performAIMove st rng (some m) =
        { st with handP2 := [rng 0, rng 1, rng 2], turn := PlayerId.P1 }) ∧
    (∀ sid node s, m.slotId = some sid → boardGet? st.board sid = some node →
      node.gate = none → m.gateType = some s → s ≠ emptyTag →
      st.handP2.findIdx? (fun x => gateToString x == s) = none →
      performAIMove st rng (some m) =
        executeMove st rng ActionType.PLACE PlayerId.P2 (some (Sum.inl sid.toNat))
          st.handP2[0]? (some 0)) := by
  refine ⟨?_, ?_, ?_⟩
  · rintro (hsid | ⟨sid, hsid, hb⟩)
    · simp [performAIMove, htag, hsid, executeMove_discard, executeMoveDiscard,
        setHand, otherPlayer]
    · by_cases hg : m.gateType = none ∨ m.gateType = some emptyTag
      · simp [performAIMove, htag, hsid, hg, executeMove_discard, executeMoveDiscard,
          setHand, otherPlayer]
      · simp [performAIMove, htag, hsid, hg, hb, executeMove_discard, executeMoveDiscard,
          setHand, otherPlayer]
  · intro hg
    rcases hsid : m.slotId with _ | sid
    · simp [performAIMove, htag, hsid, executeMove_discard, executeMoveDiscard,
        setHand, otherPlayer]
    · simp [performAIMove, htag, hsid, hg, executeMove_discard, executeMoveDiscard,
        setHand, otherPlayer]
  · intro sid node s hsid hb hgate hgt hne hfind
    simp [performAIMove, htag, hsid, hb, hgate, hgt, hne, hfind]

/-- Counterexample for C1 as stated: the §8 scenario proposal
{PLACE, slotId: 99, gateKind: AND} on a board whose first empty slot is 2
with hand [OR, XOR, NAND] does NOT resolve to placing OR at slot 2 — nothing
is placed (slot 2 stays empty), P2's whole hand is redealt, and the turn
passes: the out-of-range read throws and the catch discards. -/
theorem proposal_repair_counterexample :
    gateAt (performAIMove scenarioState rngAND (some proposalSlot99)).board 2 = none ∧
    (performAIMove scenarioState rngAND (some proposalSlot99)).handP2 =
      [GateType.AND, GateType.AND, GateType.AND] ∧
    (performAIMove scenarioState rngAND (some proposalSlot99)).turn = PlayerId.P1 := by
  decide

/-- Witness for C1: the slot-99 scenario proposal resolves to exactly the
discard transition. -/
theorem proposal_repair_policy_witness :
    performAIMove scenarioState rngAND (some proposalSlot99) =
      { scenarioState with handP2 := [rngAND 0, rngAND 1, rngAND 2],
                           turn := PlayerId.P1 } :=
  (proposal_repair_policy scenarioState rngAND proposalSlot99 (by decide)).1
    (Or.inr ⟨99, rfl, by decide⟩)

/-- C2 (code bug): a PLACE proposal targeting the occupied slot 0 while slot
2 is empty triggers the fallback
`executeMove('PLACE', 'P2', players['P2'].hand[0], players['P2'].hand[0], 0)`,
which passes the hand card where the slot id belongs: the turn is consumed
(turn passes to P1, no winner), P2's card 0 is spent and redrawn, yet the
gate assignment of the board is unchanged — no gate is placed anywhere.  The
resolved "action" is neither a legal placeGate nor a discardHand,
contradicting the claim and the source's own "Fallback: Pick first empty"
comment. -/
theorem occupied_fallback_bug :
    (performAIMove scenarioState rngAND (some proposalOccupied)).board.map BoardNode.gate =
      scenarioState.board.map BoardNode.gate ∧
    (performAIMove scenarioState rngAND (some proposalOccupied)).handP2 =
      [GateType.XOR, GateType.NAND, GateType.AND] ∧
    (performAIMove scenarioState rngAND (some proposalOccupied)).turn = PlayerId.P1 ∧
    (performAIMove scenarioState rngAND (some proposalOccupied)).winner = none := by
  decide
